import Mathlib

/-!
Verification of the travel-assistant orchestration core: a shallow embedding of
the spend-cap gate (`app/orchestration/spend_cap.py`), the ledger aggregation
(`app/repositories/ledger.py`) and the LLM orchestrator
(`app/orchestration/llm_orchestrator.py`), with theorems settling the spec
claims about them.

Modelling conventions:
* Python `float` money values are modelled as exact rationals (`ℚ`); the claims
  under scrutiny are about the arithmetic the code performs, not about binary
  floating-point representation.
* The ambient current UTC month (`datetime.utcnow().strftime("%Y-%m")`) is an
  explicit `month_key : String` parameter threaded to every function that
  defaults it in Python.
* The database-backed stores (messages, ledger, itineraries) are explicit
  lists/counters in a state record; repository writes are modelled as total
  (the claims under scrutiny do not concern persistence failures); SQL
  `SUM(...) or 0.0` is a list sum.
* Network collaborators (the OpenAI HTTP client, the POI provider, the hotel
  provider) are oracle parameters; an oracle that can raise an exception
  returns `Except`, with the exception text as the error value.
* A Python dict payload is a structure whose fields are `Option`-typed when a
  consumer reads them with `dict.get`; an absent key is `none`.
-/

namespace TravelAssistant

/-! Ledger and spend cap (`app/repositories/ledger.py`,
`app/orchestration/spend_cap.py`). -/

/-- One row of the `llm_ledger` table, as written by
`LedgerRepository.record_usage`. -/
structure LedgerEntry where
  session_id : Option String
  model : String
  prompt_tokens : Nat
  completion_tokens : Nat
  cost_usd : ℚ
  month_key : String
  blocked_after : Bool
deriving Repr, DecidableEq

/-- Embeds `LedgerRepository.get_monthly_spend`: the SQL
`SUM(cost_usd) WHERE month_key == month_key`, with `result or 0.0`
turning the empty-sum `NULL` into `0.0`. -/
def monthlySpend (ledger : List LedgerEntry) (month_key : String) : ℚ :=
  ((ledger.filter (fun e => e.month_key == month_key)).map (fun e => e.cost_usd)).sum

/-- Embeds `SpendCapManager.is_spend_cap_exceeded` /
`LedgerRepository.is_spend_cap_exceeded`: `monthly_spend >= cap_usd`. -/
def is_spend_cap_exceeded (cap : ℚ) (ledger : List LedgerEntry) (month_key : String) : Bool :=
  decide (cap ≤ monthlySpend ledger month_key)

/-- Embeds `SpendCapManager.get_remaining_budget`: `max(0.0, cap - spent)`. -/
def get_remaining_budget (cap : ℚ) (ledger : List LedgerEntry) (month_key : String) : ℚ :=
  max 0 (cap - monthlySpend ledger month_key)

/-- The dict returned by `SpendCapManager.get_spend_status`. -/
structure SpendStatus where
  month : String
  cap_usd : ℚ
  spent_usd : ℚ
  remaining_usd : ℚ
  percentage_used : ℚ
  is_capped : Bool
  is_warning : Bool
deriving Repr, DecidableEq

/-- Embeds `SpendCapManager.get_spend_status`. -/
def get_spend_status (cap : ℚ) (ledger : List LedgerEntry) (month_key : String) : SpendStatus :=
  let spent := monthlySpend ledger month_key
  let remaining := max 0 (cap - spent)
  let percentage := if 0 < cap then spent / cap * 100 else 0
  { month := month_key
    cap_usd := cap
    spent_usd := spent
    remaining_usd := remaining
    percentage_used := percentage
    is_capped := decide (cap ≤ spent)
    is_warning := decide (80 ≤ percentage) }

/-- The `pricing` dict of `SpendCapManager.estimate_call_cost`
(cost per 1K tokens: prompt rate, completion rate). -/
def pricing : List (String × ℚ × ℚ) :=
  [("gpt-4", (3/100, 6/100)),
   ("gpt-4-turbo", (1/100, 3/100)),
   ("gpt-3.5-turbo", (3/2000, 2/1000))]

/-- Embeds `SpendCapManager.estimate_call_cost`:
`pricing.get(model, pricing["gpt-4"])`, then
`(prompt_tokens/1000)*prompt_rate + (completion_tokens/1000)*completion_rate`. -/
def estimate_call_cost (model : String) (prompt_tokens completion_tokens : Nat) : ℚ :=
  let model_pricing := (pricing.lookup model).getD (3/100, 6/100)
  (prompt_tokens : ℚ) / 1000 * model_pricing.1
    + (completion_tokens : ℚ) / 1000 * model_pricing.2

/-- Embeds `SpendCapManager.record_llm_call`; returns the ledger after the
write.  The cost is `actual_cost_usd` when given, otherwise the estimate;
`blocked_after` is set when the cap was not already exceeded but
`current_spend + cost >= cap`. -/
def record_llm_call (cap : ℚ) (ledger : List LedgerEntry) (month_key : String)
    (session_id : Option String) (model : String)
    (prompt_tokens completion_tokens : Nat)
    (actual_cost_usd : Option ℚ) : List LedgerEntry :=
  let cost := actual_cost_usd.getD (estimate_call_cost model prompt_tokens completion_tokens)
  let blocked_after :=
    if is_spend_cap_exceeded cap ledger month_key then false
    else decide (cap ≤ monthlySpend ledger month_key + cost)
  ledger ++ [{ session_id := session_id
               model := model
               prompt_tokens := prompt_tokens
               completion_tokens := completion_tokens
               cost_usd := cost
               month_key := month_key
               blocked_after := blocked_after }]

/-- Embeds `app.utils.tokens.estimate_tokens`: 0 for falsy text, otherwise
`ceil(utf8_bytes / 4)` as `(byte_len + 3) // 4`. -/
def estimate_tokens (text : String) : Nat :=
  if text = "" then 0 else (text.utf8ByteSize + 3) / 4

/-- Rounds a rational to the nearest integer, ties to even, the rounding of
Python float formatting. -/
def round_half_even (x : ℚ) : ℤ :=
  let f := ⌊x⌋
  let r := x - f
  if r < 1/2 then f
  else if 1/2 < r then f + 1
  else if f % 2 = 0 then f else f + 1

/-- Renders a rational the way a Python `f"{x:.2f}"` renders the
corresponding float: two decimal places, round half to even. -/
def format2f (x : ℚ) : String :=
  let n := round_half_even (x * 100)
  let a := n.natAbs
  let fracStr := (if a % 100 < 10 then "0" else "") ++ toString (a % 100)
  (if n < 0 then "-" else "") ++ toString (a / 100) ++ "." ++ fracStr

/-- Embeds `SpendCapManager.get_fallback_response`: the canned cap-exceeded
message with the cap and the current monthly spend interpolated. -/
def get_fallback_response (cap : ℚ) (ledger : List LedgerEntry) (month_key : String) : String :=
  let spend_status := get_spend_status cap ledger month_key
  "I\u0027m sorry, but I\u0027ve reached the monthly budget limit of $"
    ++ format2f cap
    ++ " for this service. The budget will reset next month. Currently spent: $"
    ++ format2f spend_status.spent_usd
    ++ ". You can still view and export any itineraries you\u0027ve already created."

/-! Tool action data model (`app/orchestration/actions_schema.py` and the
payload dicts built in `app/orchestration/llm_orchestrator.py`). -/

/-- An element of the POI provider result list; its contents are opaque to the
orchestration core (only list lengths are inspected). -/
structure POI where
  name : String
deriving Repr, DecidableEq

/-- An element of the hotel provider result list; opaque to the core. -/
structure Hotel where
  name : String
deriving Repr, DecidableEq

/-- The payload dict an action places in `ActionResult.data`.  Every key some
consumer reads via `dict.get` is an `Option` field; an absent key is `none`. -/
structure ActionData where
  city : Option String := none
  country : Option String := none
  categories : List String := []
  budget_tier : Option String := none
  pois : List POI := []
  hotels : List Hotel := []
  count : Option Nat := none
  api_success : Option Bool := none
  use_llm_knowledge : Option Bool := none
  itinerary_id : Option String := none
  days_count : Option Nat := none
deriving Repr, DecidableEq

/-- Embeds the pydantic `ActionResult` model of `actions_schema.py`. -/
structure ActionResult where
  action : String
  success : Bool
  data : Option ActionData := none
  error : Option String := none
deriving Repr, DecidableEq

/-- One activity object inside a day object of a `finalize_itinerary` call,
with the `dict.get` defaults used by `_finalize_itinerary_action`. -/
structure Activity where
  type : String := "poi"
  name : String := ""
  start_time : Option String := none
  end_time : Option String := none
  notes : String := ""
deriving Repr, DecidableEq

/-- One day object of a `finalize_itinerary` call. -/
structure DayData where
  day_index : Int := 0
  date : String := ""
  activities : List Activity := []
deriving Repr, DecidableEq

/-- The JSON argument object of one `execute_travel_action` call.  Fields that
the actions read with `args.get(key, default)` carry that default; `limit` and
`budget_tier` stay optional because their defaults differ per action. -/
structure ToolArgs where
  action : Option String := none
  city : String := ""
  country : Option String := none
  categories : List String := []
  budget_tier : Option String := none
  limit : Option Nat := none
  start_date : String := ""
  end_date : String := ""
  days : List DayData := []
deriving Repr, DecidableEq

/-! City geocoding and POI search (`LLMOrchestrator._get_city_coordinates`,
`LLMOrchestrator._search_pois_action`). -/

/-- The hard-coded `city_coords` dict of `_get_city_coordinates`
(lat, lon per lowercase city key). -/
def city_coords_table : List (String × ℚ × ℚ) :=
  [("athens", (37.9755, 23.7348)),
   ("paris", (48.8566, 2.3522)),
   ("london", (51.5074, -0.1278)),
   ("rome", (41.9028, 12.4964)),
   ("madrid", (40.4168, -3.7038)),
   ("berlin", (52.5200, 13.4050)),
   ("amsterdam", (52.3676, 4.9041)),
   ("prague", (50.0755, 14.4378)),
   ("vienna", (48.2082, 16.3738)),
   ("barcelona", (41.3851, 2.1734))]

/-- Python `str.lower()` (over the ASCII range the code uses), implemented
character-wise so that it evaluates in the kernel. -/
def py_lower (s : String) : String :=
  String.mk (s.toList.map Char.toLower)

/-- Embeds `LLMOrchestrator._get_city_coordinates`:
`city_coords.get(city.lower())`.  The `country` parameter is accepted and, as
in the source, never read. -/
def get_city_coordinates (city : String) (country : Option String) : Option (ℚ × ℚ) :=
  city_coords_table.lookup (py_lower city)

/-- The `category_mapping` dict of `_search_pois_action`. -/
def category_mapping : List (String × String) :=
  [("museums", "museums"),
   ("historic", "historic"),
   ("restaurants", "foods"),
   ("parks", "natural"),
   ("attractions", "tourist_facilities"),
   ("shopping", "shops"),
   ("entertainment", "entertainment")]

/-- Embeds the `kinds` computation of `_search_pois_action`: `None` when the
category list is empty or nothing maps, otherwise the mapped kinds joined with
commas (unrecognized categories dropped silently). -/
def mapped_kinds (categories : List String) : Option String :=
  if categories.isEmpty then none
  else
    let mk := categories.filterMap (fun cat => category_mapping.lookup (py_lower cat))
    if mk.isEmpty then none else some (String.intercalate "," mk)

/-- Oracle for `OpenTripMapClient.search_places_by_radius`
(lat, lon, kinds, limit); `Except.error` models a raised exception. -/
def POIProvider : Type := ℚ → ℚ → Option String → Nat → Except String (List POI)

/-- Oracle for the hotel provider `search_hotels`
(city, country, budget_tier, limit). -/
def HotelProvider : Type := String → Option String → String → Nat → Except String (List Hotel)

/-- Embeds `LLMOrchestrator._search_pois_action`: fails only on an empty city;
otherwise resolves coordinates, queries the provider (an exception is caught
and leaves the list empty), and always returns `success=true` carrying
`count`, `api_success` and `use_llm_knowledge = (count == 0)`. -/
def search_pois_action (provider : POIProvider) (args : ToolArgs) : ActionResult :=
  if args.city = "" then
    { action := "search_pois", success := false, error := some "City is required" }
  else
    let kinds := mapped_kinds args.categories
    let outcome :=
      match get_city_coordinates args.city args.country with
      | none => (([] : List POI), false)
      | some coords =>
        match provider coords.1 coords.2 kinds (args.limit.getD 20) with
        | Except.ok pois => (pois, decide (0 < pois.length))
        | Except.error _ => ([], false)
    { action := "search_pois"
      success := true
      data := some { city := some args.city
                     country := args.country
                     categories := args.categories
                     pois := outcome.1
                     count := some outcome.1.length
                     api_success := some outcome.2
                     use_llm_knowledge := some (decide (outcome.1.length = 0)) } }

/-- Embeds `LLMOrchestrator._search_hotels_action`: fails only on an empty
city; a provider exception is NOT caught here (it propagates to
`_execute_action`), hence the `Except` result. -/
def search_hotels_action (provider : HotelProvider) (args : ToolArgs) :
    Except String ActionResult :=
  if args.city = "" then
    Except.ok { action := "search_hotels", success := false, error := some "City is required" }
  else
    match provider args.city args.country (args.budget_tier.getD "mid") (args.limit.getD 10) with
    | Except.error e => Except.error e
    | Except.ok hotels =>
      Except.ok { action := "search_hotels"
                  success := true
                  data := some { city := some args.city
                                 budget_tier := some (args.budget_tier.getD "mid")
                                 hotels := hotels
                                 count := some hotels.length } }

/-! Strict date parsing (`datetime.strptime(s, "%Y-%m-%d").date()`), itinerary
persistence and `LLMOrchestrator._finalize_itinerary_action`. -/

/-- Gregorian leap-year rule, as used by `datetime.date` validation. -/
def isLeapYear (y : Nat) : Bool :=
  (y % 4 == 0 && y % 100 != 0) || y % 400 == 0

/-- Number of days of month `m` of year `y`, as validated by `datetime.date`. -/
def daysInMonth (y m : Nat) : Nat :=
  if m = 2 then (if isLeapYear y then 29 else 28)
  else if m = 4 ∨ m = 6 ∨ m = 9 ∨ m = 11 then 30
  else 31

/-- Splits a character list on the `-` separator (the literal separators of
the `%Y-%m-%d` format). -/
def split_on_dash : List Char → List (List Char)
  | [] => [[]]
  | c :: cs =>
    if c = '-' then [] :: split_on_dash cs
    else
      match split_on_dash cs with
      | [] => [[c]]
      | grp :: rest => (c :: grp) :: rest

/-- Numeric value of a list of decimal digit characters. -/
def digits_to_nat (l : List Char) : Nat :=
  l.foldl (fun n c => n * 10 + (c.toNat - 48)) 0

/-- Embeds strict CPython `datetime.strptime(s, "%Y-%m-%d").date()`: exactly
three components separated by `-`; a 4-digit year; a 1-2 digit month in 1..12;
a 1-2 digit day accepted by the `%d` pattern and by calendar validation
(folded here into `1 <= d <= daysInMonth`); the year at least `MINYEAR = 1`.
`none` models the `ValueError` raised on any violation. -/
def parse_date (s : String) : Option (Nat × Nat × Nat) :=
  match split_on_dash s.toList with
  | [ys, ms, ds] =>
    if ys.length = 4 && ys.all Char.isDigit
        && (ms.length = 1 || ms.length = 2) && ms.all Char.isDigit
        && (ds.length = 1 || ds.length = 2) && ds.all Char.isDigit then
      let y := digits_to_nat ys
      let m := digits_to_nat ms
      let d := digits_to_nat ds
      if 1 ≤ y && 1 ≤ m && m ≤ 12 && 1 ≤ d && d ≤ daysInMonth y m then
        some (y, m, d)
      else none
    else none
  | _ => none

/-- The text of the `ValueError` that a failed strict parse raises, abridged
(CPython quotes the data and varies the wording per failure kind; only the
wrapped prefix `Invalid date format: ` is ever asserted on). -/
def value_error_text (s : String) : String :=
  "time data " ++ s ++ " does not match format %Y-%m-%d"

/-- A persisted itinerary header row. -/
structure ItineraryRow where
  id : Nat
  session_id : String
  city : String
  country : Option String
  start_date : Nat × Nat × Nat
  end_date : Nat × Nat × Nat
  budget_tier : String
deriving Repr, DecidableEq

/-- A persisted itinerary day row. -/
structure DayRow where
  id : Nat
  itinerary_id : Nat
  day_index : Int
  date : Nat × Nat × Nat
deriving Repr, DecidableEq

/-- A persisted itinerary item row. -/
structure ItemRow where
  id : Nat
  day_id : Nat
  item_type : String
  start_time : Option String
  end_time : Option String
  notes : String
deriving Repr, DecidableEq

/-- The itinerary store (`ItineraryRepository`) as explicit state: an id
counter and the created rows. -/
structure ItinStore where
  nextId : Nat := 1
  itineraries : List ItineraryRow := []
  days : List DayRow := []
  items : List ItemRow := []
deriving Repr, DecidableEq

/-- Embeds `ItineraryRepository.create_itinerary` (returns the created id). -/
def create_itinerary (st : ItinStore) (session_id city : String) (country : Option String)
    (start_date end_date : Nat × Nat × Nat) (budget_tier : String) : Nat × ItinStore :=
  (st.nextId,
   { st with nextId := st.nextId + 1
             itineraries := st.itineraries ++
               [{ id := st.nextId, session_id := session_id, city := city, country := country,
                  start_date := start_date, end_date := end_date, budget_tier := budget_tier }] })

/-- Embeds `ItineraryRepository.create_day` (returns the created id). -/
def create_day (st : ItinStore) (itinerary_id : Nat) (day_index : Int)
    (date : Nat × Nat × Nat) : Nat × ItinStore :=
  (st.nextId,
   { st with nextId := st.nextId + 1
             days := st.days ++
               [{ id := st.nextId, itinerary_id := itinerary_id,
                  day_index := day_index, date := date }] })

/-- Embeds `ItineraryRepository.create_item`. -/
def create_item (st : ItinStore) (day_id : Nat) (item_type : String)
    (start_time end_time : Option String) (notes : String) : Nat × ItinStore :=
  (st.nextId,
   { st with nextId := st.nextId + 1
             items := st.items ++
               [{ id := st.nextId, day_id := day_id, item_type := item_type,
                  start_time := start_time, end_time := end_time, notes := notes }] })

/-- Embeds the Python strip of spaces and dashes applied to the joined
name/notes text of an activity. -/
def strip_space_dash (s : String) : String :=
  let p := fun c => c = ' ' || c = '-'
  String.mk (((s.toList.dropWhile p).reverse.dropWhile p).reverse)

/-- The day/item creation loop of `_finalize_itinerary_action`.  A day whose
date fails strict parsing stops the loop with the `ValueError` text (first
component), leaving the rows created so far in place (the source has no
transaction around the loop). -/
def finalize_days (itinerary_id : Nat) : ItinStore → List DayData → Option String × ItinStore
  | st, [] => (none, st)
  | st, day :: rest =>
    match parse_date day.date with
    | none => (some (value_error_text day.date), st)
    | some d =>
      let day_created := create_day st itinerary_id day.day_index d
      let st2 := day.activities.foldl
        (fun acc a =>
          (create_item acc day_created.1 a.type a.start_time a.end_time
            (strip_space_dash (a.name ++ " - " ++ a.notes))).2)
        day_created.2
      finalize_days itinerary_id st2 rest

/-- Embeds `LLMOrchestrator._finalize_itinerary_action`: requires
city/start_date/end_date/days truthy, parses all dates strictly (a failure is
the caught `ValueError`, surfaced as an `Invalid date format: ...` error),
creates the header then the day/item rows, and on success returns
`{itinerary_id, city, days_count}`. -/
def finalize_itinerary_action (args : ToolArgs) (session_id : String) (st : ItinStore) :
    ActionResult × ItinStore :=
  if args.city = "" || args.start_date = "" || args.end_date = "" || args.days.isEmpty then
    ({ action := "finalize_itinerary", success := false,
       error := some "Missing required fields: city, start_date, end_date, days" }, st)
  else
    match parse_date args.start_date with
    | none =>
      ({ action := "finalize_itinerary", success := false,
         error := some ("Invalid date format: " ++ value_error_text args.start_date) }, st)
    | some sd =>
      match parse_date args.end_date with
      | none =>
        ({ action := "finalize_itinerary", success := false,
           error := some ("Invalid date format: " ++ value_error_text args.end_date) }, st)
      | some ed =>
        let header := create_itinerary st session_id args.city args.country sd ed
          (args.budget_tier.getD "mid")
        match finalize_days header.1 header.2 args.days with
        | (some e, st2) =>
          ({ action := "finalize_itinerary", success := false,
             error := some ("Invalid date format: " ++ e) }, st2)
        | (none, st2) =>
          ({ action := "finalize_itinerary", success := true,
             data := some { itinerary_id := some (toString header.1)
                            city := some args.city
                            days_count := some args.days.length } }, st2)

/-! Action dispatch (`LLMOrchestrator._execute_action`). -/

/-- Python `action_type or "unknown"`: `None` and the falsy empty string both
fall back to `"unknown"`. -/
def py_or_unknown (o : Option String) : String :=
  match o with
  | some s => if s = "" then "unknown" else s
  | none => "unknown"

/-- Python `f"...{o}..."` of an `Optional[str]`: `None` renders as `"None"`. -/
def py_str_opt (o : Option String) : String :=
  match o with
  | some s => s
  | none => "None"

/-- Embeds `LLMOrchestrator._execute_action`: dispatch on the `action` string;
anything else is an `Unknown action` failure; any exception raised by a
branch (here: only the hotel provider, the other two branches catch their
own) is caught and converted to a failed `ActionResult` with the exception
text. -/
def execute_action (poiP : POIProvider) (hotelP : HotelProvider)
    (args : ToolArgs) (session_id : String) (st : ItinStore) : ActionResult × ItinStore :=
  if args.action = some "search_pois" then
    (search_pois_action poiP args, st)
  else if args.action = some "search_hotels" then
    match search_hotels_action hotelP args with
    | Except.ok r => (r, st)
    | Except.error e =>
      ({ action := py_or_unknown args.action, success := false, error := some e }, st)
  else if args.action = some "finalize_itinerary" then
    finalize_itinerary_action args session_id st
  else
    ({ action := py_or_unknown args.action, success := false,
       error := some ("Unknown action: " ++ py_str_opt args.action) }, st)

/-! Tool-result classification, user-facing response text and the
continuation decision (`LLMOrchestrator._handle_tool_calls`,
`LLMOrchestrator._generate_tool_response`). -/

/-- The `poi_failed` classifier of `_handle_tool_calls`: a successful
`search_pois` result whose dict payload has `count` 0 (`dict.get` default 0
when the key is absent). -/
def poi_failed_flag (results : List ActionResult) : Bool :=
  results.any (fun r =>
    r.action == "search_pois" && r.success &&
      match r.data with
      | some d => d.count.getD 0 == 0
      | none => false)

/-- The `hotel_failed` classifier of `_handle_tool_calls`, analogous. -/
def hotel_failed_flag (results : List ActionResult) : Bool :=
  results.any (fun r =>
    r.action == "search_hotels" && r.success &&
      match r.data with
      | some d => d.count.getD 0 == 0
      | none => false)

/-- The `itinerary_created` classifier: any successful `finalize_itinerary`. -/
def itinerary_created_flag (results : List ActionResult) : Bool :=
  results.any (fun r => r.action == "finalize_itinerary" && r.success)

/-- The `itinerary_id` extraction of the dispatch loop of
`_handle_tool_calls`: the last successful finalize wins. -/
def extract_itinerary_id (results : List ActionResult) : Option String :=
  results.foldl
    (fun acc r =>
      if r.action == "finalize_itinerary" && r.success then (r.data.getD {}).itinerary_id
      else acc)
    none

/-- The failed-action line of `_generate_tool_response`. -/
def failed_action_line (r : ActionResult) : String :=
  "❌ " ++ r.action ++ " failed: " ++ py_str_opt r.error

/-- The loop body of `_generate_tool_response`, folded over the results:
accumulates `response_parts` and the `poi_search_failed` flag.  A successful
result whose payload a Python attribute access would need is read through
`Option.getD {}`; the dispatch paths that reach this function always attach a
payload to successful results. -/
def gtr_loop : List ActionResult → List String × Bool → List String × Bool
  | [], acc => acc
  | r :: rest, (parts, poiFailed) =>
    if r.success = false then
      gtr_loop rest (parts ++ [failed_action_line r], poiFailed)
    else if r.action = "search_pois" then
      let data := r.data.getD {}
      if 0 < data.count.getD 0 then
        gtr_loop rest
          (parts ++ ["🏛️ Found " ++ toString (data.count.getD 0) ++ " interesting places in "
            ++ data.city.getD "" ++ "! I\u0027ll include the best ones in your itinerary."],
           poiFailed)
      else gtr_loop rest (parts, true)
    else if r.action = "search_hotels" then
      let data := r.data.getD {}
      if 0 < data.count.getD 0 then
        gtr_loop rest
          (parts ++ ["🏨 Found " ++ toString (data.count.getD 0) ++ " "
            ++ data.budget_tier.getD "mid" ++ "-range hotels in " ++ data.city.getD ""
            ++ "! I\u0027ll recommend the best options for your stay."],
           poiFailed)
      else
        gtr_loop rest
          (parts ++ ["I\u0027ll provide excellent hotel recommendations for "
            ++ data.city.getD "" ++ " based on your " ++ data.budget_tier.getD "mid"
            ++ " budget."],
           poiFailed)
    else if r.action = "finalize_itinerary" then
      let data := r.data.getD {}
      gtr_loop rest
        (parts ++ ["✅ Perfect! I\u0027ve created your " ++ toString (data.days_count.getD 0)
          ++ "-day itinerary for " ++ data.city.getD ""
          ++ "! You can export it as JSON using the link below or continue chatting to refine it."],
         poiFailed)
    else gtr_loop rest (parts, poiFailed)

/-- Embeds `LLMOrchestrator._generate_tool_response`. -/
def generate_tool_response (results : List ActionResult) : String :=
  if results.isEmpty then
    "I couldn\u0027t execute the requested actions. Please try again."
  else
    let looped := gtr_loop results ([], false)
    if looped.2 && !(results.any (fun r => r.action == "finalize_itinerary"))
        && looped.1.isEmpty then
      ""
    else if looped.1.isEmpty then "Actions completed successfully!"
    else String.intercalate " " looped.1

/-- The usage/content portion of the follow-up (no-tools) LLM response that
`_handle_tool_calls` reads. -/
structure FollowUpResp where
  content : String
  prompt_tokens : Nat := 0
  completion_tokens : Nat := 0
deriving Repr, DecidableEq

/-- The dict `_handle_tool_calls` returns, extended with an explicit
`second_llm_call_made` trace bit recording whether the continuation branch
(which performs the second, tool-free HTTP call) was entered. -/
structure ToolPhaseResult where
  success : Bool
  content : String
  prompt_tokens : Nat
  completion_tokens : Nat
  itinerary_id : Option String
  second_llm_call_made : Bool
deriving Repr, DecidableEq

/-- Embeds the post-dispatch portion of `LLMOrchestrator._handle_tool_calls`:
classify the results, build the user-facing summary, and when the summary is
empty or a search came back empty without a finalized itinerary, issue the
second LLM call without tools (the `follow_up` oracle; its context assembly
and its own ledger recording live behind the oracle).  A follow-up exception
degrades to the canned ready-to-help text. -/
def handle_tool_results (results : List ActionResult)
    (follow_up : Except Unit FollowUpResp)
    (prompt_tokens completion_tokens : Nat) : ToolPhaseResult :=
  let poi_failed := poi_failed_flag results
  let hotel_failed := hotel_failed_flag results
  let itinerary_created := itinerary_created_flag results
  let itinerary_id := extract_itinerary_id results
  let response_content := generate_tool_response results
  if response_content = "" || ((poi_failed || hotel_failed) && !itinerary_created) then
    match follow_up with
    | Except.ok resp =>
      { success := true
        content := resp.content
        prompt_tokens := prompt_tokens + resp.prompt_tokens
        completion_tokens := completion_tokens + resp.completion_tokens
        itinerary_id := itinerary_id
        second_llm_call_made := true }
    | Except.error _ =>
      { success := true
        content := "I\u0027m ready to create a great itinerary for you! Please provide your travel dates and I\u0027ll design a detailed plan."
        prompt_tokens := prompt_tokens
        completion_tokens := completion_tokens
        itinerary_id := itinerary_id
        second_llm_call_made := true }
  else
    { success := true
      content := response_content
      prompt_tokens := prompt_tokens
      completion_tokens := completion_tokens
      itinerary_id := itinerary_id
      second_llm_call_made := false }

/-! Pseudo tool-call parsing (`LLMOrchestrator._parse_pseudo_tool_calls`). -/

/-- Whether a character list starts with the given pattern. -/
def chars_start_with : List Char → List Char → Bool
  | [], _ => true
  | _ :: _, [] => false
  | p :: ps, c :: cs => p == c && chars_start_with ps cs

/-- Whether a character list contains the given pattern as a contiguous
subsequence. -/
def chars_contain (pat : List Char) : List Char → Bool
  | [] => pat.isEmpty
  | c :: cs => chars_start_with pat (c :: cs) || chars_contain pat cs

/-- Case-insensitive containment of the substring `action`, the
`re.IGNORECASE` content test of the tag pattern. -/
def containsActionCI (s : List Char) : Bool :=
  chars_contain ("action".toList) (s.map Char.toLower)

/-- Scans for the text before the first regex match of
`\[[^\]]*action[^\]]*\]` (a bracketed tag whose contents, which cannot span a
closing bracket, case-insensitively contain `action`); `none` when the
pattern does not match anywhere. -/
def preface_of : List Char → Option (List Char)
  | [] => none
  | c :: cs =>
    if c = '[' then
      let pre := cs.takeWhile (fun ch => ch ≠ ']')
      let rest := cs.dropWhile (fun ch => ch ≠ ']')
      if rest.isEmpty then (preface_of cs).map (fun l => c :: l)
      else if containsActionCI pre then some []
      else (preface_of cs).map (fun l => c :: l)
    else (preface_of cs).map (fun l => c :: l)

/-- Fuelled scanner behind `tag_suffixes`.  Every step either fails its
pattern and advances one character or succeeds and resumes after the match
(at `rest.tail`, a strict suffix), so fuel equal to the text length never
runs out; the fuel only makes the recursion structural so that the scanner
evaluates in the kernel. -/
def tag_suffixes_fuel : Nat → List Char → List (List Char)
  | 0, _ => []
  | _, [] => []
  | fuel + 1, c :: cs =>
    if c = '[' then
      let pre := cs.takeWhile (fun ch => ch ≠ ']')
      let rest := cs.dropWhile (fun ch => ch ≠ ']')
      if rest.isEmpty then tag_suffixes_fuel fuel cs
      else if containsActionCI pre then rest.tail :: tag_suffixes_fuel fuel rest.tail
      else tag_suffixes_fuel fuel cs
    else tag_suffixes_fuel fuel cs

/-- For every (non-overlapping, left-to-right) match of the tag pattern, the
text after the match end, mirroring `pattern.finditer`; the JSON block of
each tag is searched in this suffix. -/
def tag_suffixes (l : List Char) : List (List Char) :=
  tag_suffixes_fuel l.length l

/-- The `content.find("{", m.end())` step: drop to the first opening brace
(kept at the head), `none` when there is none. -/
def drop_to_lbrace : List Char → Option (List Char)
  | [] => none
  | c :: cs => if c = '{' then some (c :: cs) else drop_to_lbrace cs

/-- The brace-depth scan of `_parse_pseudo_tool_calls`: track depth from the
opening brace, return the accumulated text once depth returns to zero, `none`
when the braces never balance.  As in the source, the counter is not aware of
braces inside JSON strings. -/
def scan_braces (depth : Int) (acc : List Char) : List Char → Option (List Char)
  | [] => none
  | c :: cs =>
    if c = '{' then scan_braces (depth + 1) (c :: acc) cs
    else if c = '}' then
      if depth - 1 = 0 then some (c :: acc).reverse
      else scan_braces (depth - 1) (c :: acc) cs
    else scan_braces depth (c :: acc) cs

/-- Extracts the balanced JSON object following a tag, if any. -/
def extract_json_after (s : List Char) : Option (List Char) :=
  match drop_to_lbrace s with
  | none => none
  | some t => scan_braces 0 [] t

/-- One entry of the OpenAI-shaped `tool_calls` list the parser synthesizes:
`{"function": {"name": ..., "arguments": ...}}`. -/
structure PseudoToolCall where
  name : String
  arguments : String
deriving Repr, DecidableEq

/-- Embeds `LLMOrchestrator._parse_pseudo_tool_calls`: `(None, "")` when the
tag pattern never matches; otherwise the preface is the text before the first
match and each match with a balanced JSON object after it contributes one
call named `execute_travel_action` (a tag without one is skipped). -/
def parse_pseudo_tool_calls (content : String) : Option (List PseudoToolCall) × String :=
  match preface_of content.toList with
  | none => (none, "")
  | some pre =>
    let calls := (tag_suffixes content.toList).filterMap (fun suf =>
      (extract_json_after suf).map (fun js =>
        { name := "execute_travel_action", arguments := String.mk js }))
    if calls.isEmpty then (none, String.mk pre)
    else (some calls, String.mk pre)

/-- The declarative tag-existence predicate used to state the no-tag clause of
the parser claim: the text decomposes around a bracketed tag with no closing
bracket inside whose contents case-insensitively contain `action`. -/
def HasActionTag (content : String) : Prop :=
  ∃ a s b : List Char,
    content.toList = a ++ '[' :: (s ++ ']' :: b) ∧
      ']' ∉ s ∧ containsActionCI s = true

/-! The chat turn (`LLMOrchestrator.process_chat_message`). -/

/-- A row of the message store (`MessageRepository.create_message`). -/
structure StoredMessage where
  session_id : String
  role : String
  content : String
  tokens_in : Option Nat := none
  tokens_out : Option Nat := none
  cost_usd : Option ℚ := none
deriving Repr, DecidableEq

/-- The orchestrator-visible mutable state of one turn: the message store,
the ledger, and a trace counter of LLM HTTP requests (incremented only inside
the LLM oracle, which performs them). -/
structure OrchState where
  messages : List StoredMessage := []
  ledger : List LedgerEntry := []
  llm_http_calls : Nat := 0
deriving Repr, DecidableEq

/-- Embeds `MessageRepository.create_message`: append one row. -/
def create_message (st : OrchState) (m : StoredMessage) : OrchState :=
  { st with messages := st.messages ++ [m] }

/-- The dict `_call_llm_with_tools` returns to `process_chat_message`; fields
read with `dict.get` are `Option`-typed. -/
structure LLMOutcome where
  success : Bool
  content : String := ""
  prompt_tokens : Option Nat := none
  completion_tokens : Option Nat := none
  cost_usd : Option ℚ := none
  itinerary_id : Option String := none
deriving Repr, DecidableEq

/-- Oracle for `_call_llm_with_tools` (and everything behind it: the HTTP
calls, ledger recording, tool dispatch); it reads and transforms the state. -/
def LLMOracle : Type := OrchState → LLMOutcome × OrchState

/-- Embeds `LLMOrchestrator.process_chat_message`.  The cap check precedes
the try block: when the cap is exceeded, the user message and the canned
fallback are stored and the turn returns without consulting the `llm` oracle.
Otherwise the user message is stored, the oracle runs, and the assistant
reply (or the generic error line) is stored.  The top-level generic-apology
exception path is not modelled (stores are total here and the oracle returns
its failure in-band, as `_call_llm_with_tools` does). -/
def process_chat_message (cap : ℚ) (month_key : String) (llm : LLMOracle)
    (session_id user_message : String) (st : OrchState) :
    (String × Bool × Bool × Option String) × OrchState :=
  if is_spend_cap_exceeded cap st.ledger month_key then
    let fallback_response := get_fallback_response cap st.ledger month_key
    let st1 := create_message st
      { session_id := session_id, role := "user", content := user_message,
        tokens_in := some (estimate_tokens user_message) }
    let st2 := create_message st1
      { session_id := session_id, role := "assistant", content := fallback_response,
        tokens_out := some (estimate_tokens fallback_response) }
    ((fallback_response, false, true, none), st2)
  else
    let st1 := create_message st
      { session_id := session_id, role := "user", content := user_message,
        tokens_in := some (estimate_tokens user_message) }
    let outcome := llm st1
    if outcome.1.success = false then
      let error_msg := "I encountered an error processing your request. Please try again."
      ((error_msg, false, false, none),
        create_message outcome.2
          { session_id := session_id, role := "assistant", content := error_msg })
    else
      ((outcome.1.content, true, false, outcome.1.itinerary_id),
        create_message outcome.2
          { session_id := session_id, role := "assistant", content := outcome.1.content,
            tokens_in := outcome.1.prompt_tokens, tokens_out := outcome.1.completion_tokens,
            cost_usd := outcome.1.cost_usd })

/-! Shared concrete inputs for witnesses. -/

/-- A one-entry ledger used by concrete witnesses: $1.50 spent in 2024-05. -/
def sampleLedger : List LedgerEntry :=
  [{ session_id := none, model := "gpt-4", prompt_tokens := 100, completion_tokens := 10,
     cost_usd := 3/2, month_key := "2024-05", blocked_after := false }]

/-- A POI provider oracle that returns no results. -/
def empty_poi_provider : POIProvider := fun _ _ _ _ => Except.ok []

/-- A hotel provider oracle that returns no results. -/
def empty_hotel_provider : HotelProvider := fun _ _ _ _ => Except.ok []

/-- An LLM oracle that succeeds with empty content and leaves the state
untouched. -/
def trivial_llm_oracle : LLMOracle := fun st => ({ success := true }, st)

/-- The `search_pois` argument object of the unknown-city scenario. -/
def atlantis_args : ToolArgs := { action := some "search_pois", city := "Atlantis" }

/-- The `finalize_itinerary` argument object of the invalid-month scenario
(`start_date = "2024-13-01"`). -/
def bad_month_args : ToolArgs :=
  { action := some "finalize_itinerary", city := "Paris", start_date := "2024-13-01",
    end_date := "2024-06-05", budget_tier := some "mid",
    days := [{ day_index := 1, date := "2024-06-01" }] }

/-! Theorems. -/

theorem monthlySpend_eq_sum_ite (ledger : List LedgerEntry) (M : String) :
    monthlySpend ledger M
      = (ledger.map (fun e => if e.month_key = M then e.cost_usd else 0)).sum := by
  induction ledger with
  | nil => rfl
  | cons e t ih =>
    by_cases h : e.month_key = M <;>
      simp [monthlySpend, List.filter_cons, h] <;>
      simpa [monthlySpend] using ih

/-- C2: `record_llm_call` appends exactly one ledger entry; its cost is the
supplied actual cost when given and the estimate otherwise; its
`blocked_after` flag is true iff the cap was not already exceeded
(`spend < cap`) and `spend + cost >= cap`.  (In particular, an entry recorded
while the cap is already exceeded has `blocked_after = false`, since then
`spend < cap` fails.) -/
theorem record_llm_call_spec (cap : ℚ) (ledger : List LedgerEntry) (month_key : String)
    (session_id : Option String) (model : String) (pt ct : Nat) (actual : Option ℚ) :
    ∃ e : LedgerEntry,
      record_llm_call cap ledger month_key session_id model pt ct actual = ledger ++ [e] ∧
      e.cost_usd = actual.getD (estimate_call_cost model pt ct) ∧
      (e.blocked_after = true ↔
        monthlySpend ledger month_key < cap ∧
          cap ≤ monthlySpend ledger month_key + e.cost_usd) := by
  refine ⟨_, rfl, rfl, ?_⟩
  by_cases h : cap ≤ monthlySpend ledger month_key
  · have hnot : ¬ monthlySpend ledger month_key < cap := not_lt.mpr h
    simp [is_spend_cap_exceeded, h, hnot]
  · have hlt : monthlySpend ledger month_key < cap := not_le.mp h
    simp [is_spend_cap_exceeded, h, hlt]

/-- C3: the spend status for a month reports `spent_usd` as the sum of
`cost_usd` over the ledger entries of that month, clamps `remaining_usd` at zero,
divides for `percentage_used` only when the cap is positive, flags `is_capped`
iff `spent >= cap` and `is_warning` iff the percentage is at least 80; and
`get_remaining_budget` agrees with the clamped remainder. -/
theorem get_spend_status_spec (cap : ℚ) (ledger : List LedgerEntry) (M : String) :
    (get_spend_status cap ledger M).spent_usd
        = (ledger.map (fun e => if e.month_key = M then e.cost_usd else 0)).sum ∧
    (get_spend_status cap ledger M).remaining_usd
        = max 0 (cap - (get_spend_status cap ledger M).spent_usd) ∧
    0 ≤ (get_spend_status cap ledger M).remaining_usd ∧
    (0 < cap → (get_spend_status cap ledger M).percentage_used
        = (get_spend_status cap ledger M).spent_usd / cap * 100) ∧
    (cap = 0 → (get_spend_status cap ledger M).percentage_used = 0) ∧
    ((get_spend_status cap ledger M).is_capped = true
        ↔ cap ≤ (get_spend_status cap ledger M).spent_usd) ∧
    ((get_spend_status cap ledger M).is_warning = true
        ↔ 80 ≤ (get_spend_status cap ledger M).percentage_used) ∧
    get_remaining_budget cap ledger M
        = max 0 (cap - (get_spend_status cap ledger M).spent_usd) := by
  refine ⟨monthlySpend_eq_sum_ite ledger M, rfl, le_max_left 0 _, ?_, ?_, ?_, ?_, rfl⟩
  · intro h
    simp [get_spend_status, h]
  · intro h
    simp [get_spend_status, h]
  · simp [get_spend_status]
  · simp [get_spend_status]

/-- C3 witness: at cap $2 with $1.50 spent, the positive-cap percentage clause
of `get_spend_status_spec` instantiates to 75%. -/
theorem get_spend_status_spec_witness :
    (0 : ℚ) < 2 ∧
      (get_spend_status 2 sampleLedger "2024-05").percentage_used
        = (get_spend_status 2 sampleLedger "2024-05").spent_usd / 2 * 100 :=
  ⟨by norm_num, (get_spend_status_spec 2 sampleLedger "2024-05").2.2.2.1 (by norm_num)⟩

/-- C4: `estimate_call_cost` charges the per-1000-token rates of the model from the
pricing table — spelled out for each of the three known models — and any model
name outside the table is priced as `"gpt-4"`, the most expensive known model,
so the estimate for an unknown model dominates the estimate under the
pricing of every known model at the same token counts. -/
theorem estimate_call_cost_spec (model : String) (pt ct : Nat) :
    estimate_call_cost "gpt-4" pt ct = (pt : ℚ) / 1000 * (3/100) + (ct : ℚ) / 1000 * (6/100) ∧
    estimate_call_cost "gpt-4-turbo" pt ct
      = (pt : ℚ) / 1000 * (1/100) + (ct : ℚ) / 1000 * (3/100) ∧
    estimate_call_cost "gpt-3.5-turbo" pt ct
      = (pt : ℚ) / 1000 * (3/2000) + (ct : ℚ) / 1000 * (2/1000) ∧
    (model ∉ ["gpt-4", "gpt-4-turbo", "gpt-3.5-turbo"] →
      estimate_call_cost model pt ct = estimate_call_cost "gpt-4" pt ct ∧
      ∀ p ∈ pricing, estimate_call_cost p.1 pt ct ≤ estimate_call_cost model pt ct) := by
  refine ⟨rfl, rfl, rfl, fun hmodel => ?_⟩
  have hlook : pricing.lookup model = none := by
    have h4 : (model == "gpt-4") = false := by simp_all
    have ht : (model == "gpt-4-turbo") = false := by simp_all
    have h35 : (model == "gpt-3.5-turbo") = false := by simp_all
    simp [pricing, List.lookup, h4, ht, h35]
  have heq : estimate_call_cost model pt ct = estimate_call_cost "gpt-4" pt ct := by
    simp only [estimate_call_cost]
    rw [hlook]
    simp [pricing, List.lookup]
  refine ⟨heq, fun p hp => ?_⟩
  have hpt : (0 : ℚ) ≤ (pt : ℚ) / 1000 := by positivity
  have hct : (0 : ℚ) ≤ (ct : ℚ) / 1000 := by positivity
  rw [heq]
  fin_cases hp <;> simp [estimate_call_cost, pricing, List.lookup] <;> linarith

/-- C4 witness: the unknown model `"claude-3"` is billed at `"gpt-4"` rates on
a 1000/1000-token call. -/
theorem estimate_call_cost_spec_witness :
    "claude-3" ∉ ["gpt-4", "gpt-4-turbo", "gpt-3.5-turbo"] ∧
      estimate_call_cost "claude-3" 1000 1000 = estimate_call_cost "gpt-4" 1000 1000 :=
  ⟨by decide, ((estimate_call_cost_spec "claude-3" 1000 1000).2.2.2 (by decide)).1⟩

theorem lookup_isSome_iff_mem_keys {β : Type} (a : String) (l : List (String × β)) :
    ((l.lookup a).isSome = true) ↔ a ∈ l.map Prod.fst := by
  induction l with
  | nil => simp [List.lookup]
  | cons p t ih =>
    cases p with
    | mk k v =>
      by_cases h : a = k
      · simp [List.lookup, h]
      · have hk : (a == k) = false := by simp [h]
        simp [List.lookup, hk, ih, h]

/-- C10: `_get_city_coordinates` depends only on the lowercased city name — the
country argument is ignored entirely — and resolves exactly the ten hard-coded
European capital keys; concretely, `"PARIS"` resolves regardless of the
country supplied. -/
theorem get_city_coordinates_spec (city : String) (c1 c2 : Option String) :
    get_city_coordinates city c1 = get_city_coordinates city c2 ∧
    ((get_city_coordinates city c1).isSome = true ↔
      py_lower city ∈ ["athens", "paris", "london", "rome", "madrid",
                       "berlin", "amsterdam", "prague", "vienna", "barcelona"]) ∧
    get_city_coordinates "PARIS" (some "France") = get_city_coordinates "paris" none ∧
    (get_city_coordinates "PARIS" (some "France")).isSome = true := by
  refine ⟨rfl, ?_, rfl, rfl⟩
  rw [get_city_coordinates, lookup_isSome_iff_mem_keys]
  simp [city_coords_table]

/-- C1: when the monthly cap is already exceeded, `process_chat_message`
returns `{success: false, spend_capped: true, itinerary_id: None}` with the
canned fallback text, appends exactly the user message and then the fallback
message to the store, and — for every LLM oracle — leaves the ledger and the
HTTP-call counter untouched (the oracle is never consulted). -/
theorem process_chat_message_capped_spec (cap : ℚ) (month_key : String) (llm : LLMOracle)
    (session_id user_message : String) (st : OrchState)
    (h : is_spend_cap_exceeded cap st.ledger month_key = true) :
    (process_chat_message cap month_key llm session_id user_message st).1
        = (get_fallback_response cap st.ledger month_key, false, true, none) ∧
    (process_chat_message cap month_key llm session_id user_message st).2.messages
        = st.messages ++
          [{ session_id := session_id, role := "user", content := user_message,
             tokens_in := some (estimate_tokens user_message) },
           { session_id := session_id, role := "assistant",
             content := get_fallback_response cap st.ledger month_key,
             tokens_out := some (estimate_tokens (get_fallback_response cap st.ledger month_key)) }] ∧
    (process_chat_message cap month_key llm session_id user_message st).2.ledger = st.ledger ∧
    (process_chat_message cap month_key llm session_id user_message st).2.llm_http_calls
        = st.llm_http_calls := by
  simp [process_chat_message, h, create_message]

/-- C1 witness: with a $1 cap already at $1.50 spent this month, the capped
turn leaves the ledger as it was. -/
theorem process_chat_message_capped_spec_witness :
    is_spend_cap_exceeded 1
        ({ messages := [], ledger := sampleLedger, llm_http_calls := 0 } : OrchState).ledger
        "2024-05" = true ∧
    (process_chat_message 1 "2024-05" trivial_llm_oracle "s1" "hi"
        { messages := [], ledger := sampleLedger, llm_http_calls := 0 }).2.ledger
      = sampleLedger :=
  ⟨by simp [is_spend_cap_exceeded, monthlySpend, sampleLedger]; norm_num,
   (process_chat_message_capped_spec 1 "2024-05" trivial_llm_oracle "s1" "hi"
      { messages := [], ledger := sampleLedger, llm_http_calls := 0 }
      (by simp [is_spend_cap_exceeded, monthlySpend, sampleLedger]; norm_num)).2.2.1⟩

/-- C6: for every non-empty city — resolvable or not, and whether or not the
POI provider raises — `_search_pois_action` succeeds with a payload whose
`count` is the length of the carried POI list, whose `api_success` holds iff
the provider call happened and returned a non-empty list, and whose
`use_llm_knowledge` holds iff `count` is zero; an empty city is the only
failure. -/
theorem search_pois_action_spec (provider : POIProvider) (args : ToolArgs) :
    (args.city ≠ "" →
      ∃ d : ActionData,
        search_pois_action provider args
          = { action := "search_pois", success := true, data := some d, error := none } ∧
        d.count = some d.pois.length ∧
        (d.api_success = some true ↔
          ∃ coords : ℚ × ℚ, get_city_coordinates args.city args.country = some coords ∧
            ∃ l : List POI,
              provider coords.1 coords.2 (mapped_kinds args.categories) (args.limit.getD 20)
                = Except.ok l ∧ 0 < l.length) ∧
        (d.use_llm_knowledge = some true ↔ d.count = some 0)) ∧
    (args.city = "" →
      search_pois_action provider args
        = { action := "search_pois", success := false, data := none,
            error := some "City is required" }) := by
  constructor
  · intro hcity
    cases hc : get_city_coordinates args.city args.country with
    | none =>
      refine ⟨{ city := some args.city, country := args.country, categories := args.categories,
                pois := [], count := some 0, api_success := some false,
                use_llm_knowledge := some true }, ?_, rfl, ?_, by simp⟩
      · rw [search_pois_action, if_neg hcity]
        simp [hc]
      · simp [hc]
    | some coords =>
      cases hp : provider coords.1 coords.2 (mapped_kinds args.categories)
          (args.limit.getD 20) with
      | ok pois =>
        refine ⟨{ city := some args.city, country := args.country,
                  categories := args.categories, pois := pois,
                  count := some pois.length,
                  api_success := some (decide (0 < pois.length)),
                  use_llm_knowledge := some (decide (pois.length = 0)) }, ?_, rfl, ?_, ?_⟩
        · rw [search_pois_action, if_neg hcity]
          simp [hc, hp]
        · constructor
          · intro hs
            refine ⟨coords, rfl, pois, hp, ?_⟩
            simpa using hs
          · rintro ⟨c, hcEq, l, hlEq, hl⟩
            injection hcEq with hcc
            subst hcc
            rw [hp] at hlEq
            injection hlEq with hll
            subst hll
            simpa using hl
        · simp
      | error e =>
        refine ⟨{ city := some args.city, country := args.country,
                  categories := args.categories, pois := [], count := some 0,
                  api_success := some false, use_llm_knowledge := some true },
                ?_, rfl, ?_, by simp⟩
        · rw [search_pois_action, if_neg hcity]
          simp [hc, hp]
        · constructor
          · intro hs
            simp at hs
          · rintro ⟨c, hcEq, l, hlEq, hl⟩
            injection hcEq with hcc
            subst hcc
            rw [hp] at hlEq
            cases hlEq
  · intro hcity
    rw [search_pois_action, if_pos hcity]

/-- C6 witness: the unknown-city scenario — `search_pois` for `"Atlantis"`
succeeds with `count = 0`, `api_success = false` and
`use_llm_knowledge = true`. -/
theorem search_pois_action_spec_witness :
    (atlantis_args.city ≠ "" ∧
      ∃ d : ActionData,
        search_pois_action empty_poi_provider atlantis_args
          = { action := "search_pois", success := true, data := some d, error := none } ∧
        d.count = some d.pois.length ∧
        (d.api_success = some true ↔
          ∃ coords : ℚ × ℚ,
            get_city_coordinates atlantis_args.city atlantis_args.country = some coords ∧
            ∃ l : List POI,
              empty_poi_provider coords.1 coords.2 (mapped_kinds atlantis_args.categories)
                  (atlantis_args.limit.getD 20)
                = Except.ok l ∧ 0 < l.length) ∧
        (d.use_llm_knowledge = some true ↔ d.count = some 0)) ∧
    search_pois_action empty_poi_provider atlantis_args
      = { action := "search_pois", success := true,
          data := some { city := some "Atlantis", pois := [], count := some 0,
                         api_success := some false, use_llm_knowledge := some true },
          error := none } :=
  ⟨⟨by decide, (search_pois_action_spec empty_poi_provider atlantis_args).1 (by decide)⟩,
   by decide⟩

theorem poi_failed_flag_iff (results : List ActionResult) :
    poi_failed_flag results = true ↔
      ∃ r ∈ results, r.action = "search_pois" ∧ r.success = true ∧
        ∃ d, r.data = some d ∧ d.count.getD 0 = 0 := by
  unfold poi_failed_flag
  rw [List.any_eq_true]
  constructor
  · rintro ⟨r, hr, hb⟩
    refine ⟨r, hr, ?_⟩
    cases hd : r.data with
    | none => rw [hd] at hb; simp at hb
    | some d =>
      rw [hd] at hb
      simp only [Bool.and_eq_true, beq_iff_eq] at hb
      exact ⟨hb.1.1, hb.1.2, d, rfl, hb.2⟩
  · rintro ⟨r, hr, ha, hs, d, hd, hc⟩
    refine ⟨r, hr, ?_⟩
    rw [hd]
    simp [ha, hs, hc]

theorem hotel_failed_flag_iff (results : List ActionResult) :
    hotel_failed_flag results = true ↔
      ∃ r ∈ results, r.action = "search_hotels" ∧ r.success = true ∧
        ∃ d, r.data = some d ∧ d.count.getD 0 = 0 := by
  unfold hotel_failed_flag
  rw [List.any_eq_true]
  constructor
  · rintro ⟨r, hr, hb⟩
    refine ⟨r, hr, ?_⟩
    cases hd : r.data with
    | none => rw [hd] at hb; simp at hb
    | some d =>
      rw [hd] at hb
      simp only [Bool.and_eq_true, beq_iff_eq] at hb
      exact ⟨hb.1.1, hb.1.2, d, rfl, hb.2⟩
  · rintro ⟨r, hr, ha, hs, d, hd, hc⟩
    refine ⟨r, hr, ?_⟩
    rw [hd]
    simp [ha, hs, hc]

theorem itinerary_created_flag_iff (results : List ActionResult) :
    itinerary_created_flag results = true ↔
      ∃ r ∈ results, r.action = "finalize_itinerary" ∧ r.success = true := by
  unfold itinerary_created_flag
  rw [List.any_eq_true]
  simp

/-- C5: after the tool calls of a turn are dispatched, the second, tool-free
LLM call is issued exactly when the generated tool-response text is empty, or
some successful `search_pois`/`search_hotels` result carried a zero count
while no `finalize_itinerary` succeeded in the turn.  The hypothesis restricts
to the inputs the dispatch loop actually produces (successful results carry a
payload; on others the Python attribute access would itself raise). -/
theorem handle_tool_results_continuation_iff (results : List ActionResult)
    (follow_up : Except Unit FollowUpResp) (pt ct : Nat)
    (hdata : ∀ r ∈ results, r.success = true → r.data.isSome = true) :
    (handle_tool_results results follow_up pt ct).second_llm_call_made = true ↔
      (generate_tool_response results = "" ∨
        ((∃ r ∈ results, r.action = "search_pois" ∧ r.success = true ∧
            ∃ d, r.data = some d ∧ d.count.getD 0 = 0) ∨
          (∃ r ∈ results, r.action = "search_hotels" ∧ r.success = true ∧
            ∃ d, r.data = some d ∧ d.count.getD 0 = 0)) ∧
        ¬ ∃ r ∈ results, r.action = "finalize_itinerary" ∧ r.success = true) := by
  have hiff : itinerary_created_flag results = false ↔
      ¬ ∃ r ∈ results, r.action = "finalize_itinerary" ∧ r.success = true := by
    rw [← itinerary_created_flag_iff]
    constructor
    · intro h hc
      rw [h] at hc
      exact Bool.false_ne_true hc
    · intro h
      cases hb : itinerary_created_flag results with
      | false => rfl
      | true => exact absurd hb h
  have hboiff : (decide (generate_tool_response results = "")
      || ((poi_failed_flag results || hotel_failed_flag results)
          && !itinerary_created_flag results)) = true ↔
      (generate_tool_response results = "" ∨
        ((∃ r ∈ results, r.action = "search_pois" ∧ r.success = true ∧
            ∃ d, r.data = some d ∧ d.count.getD 0 = 0) ∨
          (∃ r ∈ results, r.action = "search_hotels" ∧ r.success = true ∧
            ∃ d, r.data = some d ∧ d.count.getD 0 = 0)) ∧
        ¬ ∃ r ∈ results, r.action = "finalize_itinerary" ∧ r.success = true) := by
    simp only [Bool.or_eq_true, Bool.and_eq_true, Bool.not_eq_true', decide_eq_true_eq,
      poi_failed_flag_iff, hotel_failed_flag_iff, hiff]
  unfold handle_tool_results
  by_cases hcond : (decide (generate_tool_response results = "")
      || ((poi_failed_flag results || hotel_failed_flag results)
          && !itinerary_created_flag results)) = true
  · simp only [if_pos hcond]
    cases follow_up with
    | ok resp => exact iff_of_true rfl (hboiff.mp hcond)
    | error u => exact iff_of_true rfl (hboiff.mp hcond)
  · simp only [if_neg hcond]
    exact iff_of_false (by simp) (fun hr => hcond (hboiff.mpr hr))

/-- C5 witness: a lone empty `search_pois` success triggers the continuation
call. -/
theorem handle_tool_results_continuation_iff_witness :
    (handle_tool_results
        [{ action := "search_pois", success := true,
           data := some { city := some "Paris", count := some 0,
                          use_llm_knowledge := some true } }]
        (Except.ok { content := "done" }) 5 7).second_llm_call_made = true :=
  (handle_tool_results_continuation_iff
      [{ action := "search_pois", success := true,
         data := some { city := some "Paris", count := some 0,
                        use_llm_knowledge := some true } }]
      (Except.ok { content := "done" }) 5 7 (by decide)).mpr (by decide)

theorem dropWhile_rbracket_split (cs : List Char)
    (h : (cs.dropWhile (fun ch => ch ≠ ']')).isEmpty = false) :
    cs = cs.takeWhile (fun ch => ch ≠ ']')
        ++ ']' :: (cs.dropWhile (fun ch => ch ≠ ']')).tail ∧
      ']' ∉ cs.takeWhile (fun ch => ch ≠ ']') := by
  constructor
  · have hsplit := List.takeWhile_append_dropWhile (fun ch => decide (ch ≠ ']')) cs
    have hne : cs.dropWhile (fun ch => ch ≠ ']') ≠ [] := by
      intro hc
      rw [hc] at h
      simp at h
    have hhead := List.head_dropWhile_not (fun ch => decide (ch ≠ ']')) cs hne
    have hhead' : (cs.dropWhile (fun ch => ch ≠ ']')).head hne = ']' :=
      not_not.mp (decide_eq_false_iff_not.mp hhead)
    conv_lhs => rw [← hsplit]
    congr 1
    have hct := List.head_cons_tail (cs.dropWhile (fun ch => ch ≠ ']')) hne
    rw [hhead'] at hct
    exact hct.symm
  · intro hmem
    have := List.mem_takeWhile_imp hmem
    simp at this

theorem preface_of_some_decomp :
    ∀ (l pre : List Char), preface_of l = some pre →
      ∃ a s b : List Char,
        l = a ++ '[' :: (s ++ ']' :: b) ∧ ']' ∉ s ∧ containsActionCI s = true := by
  intro l
  induction l with
  | nil => intro pre h; simp [preface_of] at h
  | cons c cs ih =>
    intro pre h
    rw [preface_of] at h
    by_cases hc : c = '['
    · rw [if_pos hc] at h
      by_cases hrest : ((cs.dropWhile (fun ch => ch ≠ ']')).isEmpty : Prop)
      · rw [if_pos hrest] at h
        rcases Option.map_eq_some'.mp h with ⟨pre', hpre', -⟩
        rcases ih pre' hpre' with ⟨a, s, b, hdec, hnb, hact⟩
        exact ⟨c :: a, s, b, by rw [List.cons_append, hdec], hnb, hact⟩
      · rw [if_neg hrest] at h
        by_cases hact : containsActionCI (cs.takeWhile (fun ch => ch ≠ ']')) = true
        · have hfalse : (cs.dropWhile (fun ch => ch ≠ ']')).isEmpty = false :=
            Bool.eq_false_iff.mpr (fun hb => hrest hb)
          rcases dropWhile_rbracket_split cs hfalse with ⟨hsplit, hnb⟩
          refine ⟨[], cs.takeWhile (fun ch => ch ≠ ']'),
            (cs.dropWhile (fun ch => ch ≠ ']')).tail, ?_, hnb, hact⟩
          rw [List.nil_append, hc]
          rw [← hsplit]
        · rw [if_neg hact] at h
          rcases Option.map_eq_some'.mp h with ⟨pre', hpre', -⟩
          rcases ih pre' hpre' with ⟨a, s, b, hdec, hnb, hact'⟩
          exact ⟨c :: a, s, b, by rw [List.cons_append, hdec], hnb, hact'⟩
    · rw [if_neg hc] at h
      rcases Option.map_eq_some'.mp h with ⟨pre', hpre', -⟩
      rcases ih pre' hpre' with ⟨a, s, b, hdec, hnb, hact⟩
      exact ⟨c :: a, s, b, by rw [List.cons_append, hdec], hnb, hact⟩

/-- C7: the pseudo-tool-call parser returns, on the canonical tagged text, the
preface before the tag and exactly one call named `execute_travel_action`
whose raw-JSON argument string is the tagged object; on any text with no
bracketed tag containing `action` (case-insensitively) it returns
`(None, "")`; and a matching tag followed by no balanced brace block yields no
call (and no error), here `(None, "")` since the unbalanced tag opens the
text. -/
theorem parse_pseudo_tool_calls_spec :
    parse_pseudo_tool_calls
        "Sure thing!\n[execute_travel_action]\n\x7b\"action\":\"search_hotels\",\"city\":\"Paris\"\x7d"
      = (some [{ name := "execute_travel_action",
                 arguments := "\x7b\"action\":\"search_hotels\",\"city\":\"Paris\"\x7d" }],
         "Sure thing!\n") ∧
    (∀ content : String,
      ¬ HasActionTag content → parse_pseudo_tool_calls content = (none, "")) ∧
    parse_pseudo_tool_calls "[action] \x7b\"city\": \"Par" = (none, "") := by
  refine ⟨by decide, ?_, by decide⟩
  intro content hno
  rw [parse_pseudo_tool_calls]
  cases hp : preface_of content.toList with
  | none => rfl
  | some pre =>
    rcases preface_of_some_decomp content.toList pre hp with ⟨a, s, b, hdec, hnb, hact⟩
    exact absurd ⟨a, s, b, hdec, hnb, hact⟩ hno

/-- C7 witness: a tagless text parses to `(None, "")`. -/
theorem parse_pseudo_tool_calls_spec_witness :
    parse_pseudo_tool_calls "hello" = (none, "") :=
  parse_pseudo_tool_calls_spec.2.1 "hello" (by
    rintro ⟨a, s, b, habs, -, -⟩
    have hmem : '[' ∈ "hello".toList := by
      rw [habs]
      exact List.mem_append_right a (List.mem_cons_self _ _)
    exact absurd hmem (by decide))

theorem finalize_days_ne_none (itin : Nat) :
    ∀ (days : List DayData) (st : ItinStore),
      (∃ day ∈ days, parse_date day.date = none) →
      ∀ st2, finalize_days itin st days ≠ (none, st2) := by
  intro days
  induction days with
  | nil =>
    rintro st ⟨d, hd, -⟩
    exact absurd hd (List.not_mem_nil d)
  | cons day rest ih =>
    intro st hex st2
    rw [finalize_days]
    cases hp : parse_date day.date with
    | none => simp
    | some d =>
      rcases hex with ⟨x, hx, hpx⟩
      rcases List.mem_cons.mp hx with rfl | hx'
      · rw [hp] at hpx
        cases hpx
      · exact ih _ ⟨x, hx', hpx⟩ st2

theorem finalize_days_ne_some (itin : Nat) :
    ∀ (days : List DayData) (st : ItinStore),
      (∀ day ∈ days, parse_date day.date ≠ none) →
      ∀ e st2, finalize_days itin st days ≠ (some e, st2) := by
  intro days
  induction days with
  | nil =>
    intro st hall e st2
    rw [finalize_days]
    simp
  | cons day rest ih =>
    intro st hall e st2
    rw [finalize_days]
    cases hp : parse_date day.date with
    | none => exact absurd hp (hall day (List.mem_cons_self _ _))
    | some d => exact ih _ (fun x hx => hall x (List.mem_cons_of_mem _ hx)) e st2

/-- C8: `_finalize_itinerary_action` rejects a missing/empty
city/start_date/end_date/days with the missing-fields error; with the fields
present, any strict-parse failure of the start date, the end date or a day
date yields a failure whose error starts `Invalid date format`; and when all
dates parse it succeeds with `{itinerary_id, city, days_count = len(days)}`.
(The embedding is total, so nothing escapes this boundary.) -/
theorem finalize_itinerary_action_spec (args : ToolArgs) (session_id : String) (st : ItinStore) :
    ((args.city = "" ∨ args.start_date = "" ∨ args.end_date = "" ∨ args.days = []) →
      (finalize_itinerary_action args session_id st).1
        = { action := "finalize_itinerary", success := false,
            error := some "Missing required fields: city, start_date, end_date, days" }) ∧
    (args.city ≠ "" → args.start_date ≠ "" → args.end_date ≠ "" → args.days ≠ [] →
      (parse_date args.start_date = none ∨ parse_date args.end_date = none ∨
          ∃ day ∈ args.days, parse_date day.date = none) →
      (finalize_itinerary_action args session_id st).1.success = false ∧
        ∃ suffix, (finalize_itinerary_action args session_id st).1.error
          = some ("Invalid date format: " ++ suffix)) ∧
    (args.city ≠ "" → args.start_date ≠ "" → args.end_date ≠ "" → args.days ≠ [] →
      parse_date args.start_date ≠ none → parse_date args.end_date ≠ none →
      (∀ day ∈ args.days, parse_date day.date ≠ none) →
      (finalize_itinerary_action args session_id st).1
        = { action := "finalize_itinerary", success := true,
            data := some { itinerary_id := some (toString st.nextId),
                           city := some args.city,
                           days_count := some args.days.length },
            error := none }) := by
  refine ⟨?_, ?_, ?_⟩
  · intro hmiss
    have hcond : (decide (args.city = "") || decide (args.start_date = "")
        || decide (args.end_date = "") || args.days.isEmpty) = true := by
      rcases hmiss with h | h | h | h <;> simp [h]
    rw [finalize_itinerary_action, if_pos hcond]
  · intro h1 h2 h3 h4 hbad
    have hcond : ¬ ((decide (args.city = "") || decide (args.start_date = "")
        || decide (args.end_date = "") || args.days.isEmpty) = true) := by
      simp [h1, h2, h3, h4]
    rw [finalize_itinerary_action, if_neg hcond]
    cases hps : parse_date args.start_date with
    | none => exact ⟨rfl, value_error_text args.start_date, rfl⟩
    | some sd =>
      cases hpe : parse_date args.end_date with
      | none => exact ⟨rfl, value_error_text args.end_date, rfl⟩
      | some ed =>
        have hdays : ∃ day ∈ args.days, parse_date day.date = none := by
          rcases hbad with h | h | h
          · rw [hps] at h
            cases h
          · rw [hpe] at h
            cases h
          · exact h
        dsimp only
        rcases hfd : finalize_days
            (create_itinerary st session_id args.city args.country sd ed
              (args.budget_tier.getD "mid")).1
            (create_itinerary st session_id args.city args.country sd ed
              (args.budget_tier.getD "mid")).2 args.days with ⟨err, st2⟩
        cases err with
        | some e => exact ⟨rfl, e, rfl⟩
        | none => exact absurd hfd (finalize_days_ne_none _ args.days _ hdays st2)
  · intro h1 h2 h3 h4 hps hpe hall
    have hcond : ¬ ((decide (args.city = "") || decide (args.start_date = "")
        || decide (args.end_date = "") || args.days.isEmpty) = true) := by
      simp [h1, h2, h3, h4]
    rw [finalize_itinerary_action, if_neg hcond]
    cases hpsv : parse_date args.start_date with
    | none => exact absurd hpsv hps
    | some sd =>
      cases hpev : parse_date args.end_date with
      | none => exact absurd hpev hpe
      | some ed =>
        dsimp only
        rcases hfd : finalize_days
            (create_itinerary st session_id args.city args.country sd ed
              (args.budget_tier.getD "mid")).1
            (create_itinerary st session_id args.city args.country sd ed
              (args.budget_tier.getD "mid")).2 args.days with ⟨err, st2⟩
        cases err with
        | some e => exact absurd hfd (finalize_days_ne_some _ args.days _ hall e st2)
        | none => rfl

/-- C8 witness: the scenario `start_date = "2024-13-01"` (invalid month) fails
with an `Invalid date format` error. -/
theorem finalize_itinerary_action_spec_witness :
    (finalize_itinerary_action bad_month_args "s" {}).1.success = false ∧
      ∃ suffix, (finalize_itinerary_action bad_month_args "s" {}).1.error
        = some ("Invalid date format: " ++ suffix) :=
  (finalize_itinerary_action_spec bad_month_args "s" {}).2.1 (by decide) (by decide)
    (by decide) (by decide) (Or.inl (by decide))

theorem search_pois_action_fail_error (p : POIProvider) (args : ToolArgs) :
    (search_pois_action p args).success = false → (search_pois_action p args).error ≠ none := by
  rw [search_pois_action]
  by_cases h : args.city = ""
  · rw [if_pos h]
    intro hs
    simp
  · rw [if_neg h]
    intro hs
    simp at hs

theorem search_hotels_action_ok_fail_error (p : HotelProvider) (args : ToolArgs)
    (r : ActionResult) :
    search_hotels_action p args = Except.ok r → r.success = false → r.error ≠ none := by
  rw [search_hotels_action]
  by_cases h : args.city = ""
  · rw [if_pos h]
    intro hr hs
    injection hr with hr'
    subst hr'
    simp
  · rw [if_neg h]
    cases hp : p args.city args.country (args.budget_tier.getD "mid") (args.limit.getD 10) with
    | error e =>
      intro hr
      cases hr
    | ok hotels =>
      intro hr hs
      injection hr with hr'
      subst hr'
      simp at hs

theorem finalize_itinerary_action_fail_error (args : ToolArgs) (session_id : String)
    (st : ItinStore) :
    (finalize_itinerary_action args session_id st).1.success = false →
      (finalize_itinerary_action args session_id st).1.error ≠ none := by
  rw [finalize_itinerary_action]
  by_cases hm : (decide (args.city = "") || decide (args.start_date = "")
      || decide (args.end_date = "") || args.days.isEmpty) = true
  · rw [if_pos hm]
    intro hs
    simp
  · rw [if_neg hm]
    cases hps : parse_date args.start_date with
    | none =>
      intro hs
      simp
    | some sd =>
      cases hpe : parse_date args.end_date with
      | none =>
        intro hs
        simp
      | some ed =>
        dsimp only
        rcases hfd : finalize_days
            (create_itinerary st session_id args.city args.country sd ed
              (args.budget_tier.getD "mid")).1
            (create_itinerary st session_id args.city args.country sd ed
              (args.budget_tier.getD "mid")).2 args.days with ⟨err, st2⟩
        cases err with
        | some e =>
          intro hs
          simp
        | none =>
          intro hs
          simp at hs

/-- C9 counterexample: the claim says an unrecognized action string is echoed
into the `action` field of the result, but for the falsy empty string the Python
`action_type or "unknown"` substitutes `"unknown"`: at
`args = {"action": ""}` the field is `"unknown"`, not the given `""`. -/
theorem execute_action_empty_action_counterexample :
    (execute_action empty_poi_provider empty_hotel_provider
        { action := some "" } "s" {}).1.action = "unknown" ∧
      ¬ (execute_action empty_poi_provider empty_hotel_provider
            { action := some "" } "s" {}).1.action = "" :=
  ⟨by decide, by decide⟩

/-- C9 (amended): `_execute_action` is total by construction; any action value
other than the three known ones yields a failed result carrying an
`Unknown action` error, with the `action` field set to the given string except
that an absent or empty (falsy) action becomes `"unknown"`; and every failed
result it returns carries a non-`None` error message. -/
theorem execute_action_spec (poiP : POIProvider) (hotelP : HotelProvider)
    (args : ToolArgs) (session_id : String) (st : ItinStore) :
    (args.action ≠ some "search_pois" → args.action ≠ some "search_hotels" →
      args.action ≠ some "finalize_itinerary" →
      (execute_action poiP hotelP args session_id st).1
        = { action := py_or_unknown args.action, success := false,
            error := some ("Unknown action: " ++ py_str_opt args.action) }) ∧
    ((execute_action poiP hotelP args session_id st).1.success = false →
      (execute_action poiP hotelP args session_id st).1.error ≠ none) := by
  constructor
  · intro h1 h2 h3
    rw [execute_action, if_neg h1, if_neg h2, if_neg h3]
  · rw [execute_action]
    by_cases h1 : args.action = some "search_pois"
    · rw [if_pos h1]
      exact search_pois_action_fail_error poiP args
    · rw [if_neg h1]
      by_cases h2 : args.action = some "search_hotels"
      · rw [if_pos h2]
        cases hh : search_hotels_action hotelP args with
        | ok r =>
          exact search_hotels_action_ok_fail_error hotelP args r hh
        | error e =>
          intro hs
          simp
      · rw [if_neg h2]
        by_cases h3 : args.action = some "finalize_itinerary"
        · rw [if_pos h3]
          exact finalize_itinerary_action_fail_error args session_id st
        · rw [if_neg h3]
          intro hs
          simp

/-- C9 witness: a non-empty unrecognized action `"teleport"` is echoed into
the `action` field with an `Unknown action` error. -/
theorem execute_action_spec_witness :
    (execute_action empty_poi_provider empty_hotel_provider
        { action := some "teleport" } "s" {}).1
      = { action := py_or_unknown (some "teleport"), success := false,
          error := some ("Unknown action: " ++ py_str_opt (some "teleport")) } ∧
      py_or_unknown (some "teleport") = "teleport" :=
  ⟨(execute_action_spec empty_poi_provider empty_hotel_provider
      { action := some "teleport" } "s" {}).1 (by decide) (by decide) (by decide),
   by decide⟩

end TravelAssistant
